import Mathlib

/-!
Verification of the Salus thermostat integration (custom_components/salus and
custom_components/salusfy). Timestamps are modelled as exact rational seconds
since an epoch (Python `datetime` arithmetic is exact for the operations used:
subtraction, `total_seconds`, `isoformat` round-trip); float accumulation is
modelled with exact rationals, which preserves the order of operations and the
control flow of the accumulator code.
-/

namespace Salus

/-! ## Heating-time accumulators (custom_components/salusfy/sensor.py) -/

/-- Local calendar date of a timestamp (seconds since epoch): `now.date()` for
a fixed local timezone, the floor of days since the epoch. -/
def dateOf (t : ℚ) : ℤ := ⌊t / 86400⌋

/-- Mutable state of `StatisticaCentralaSensor` (and, with a different signal
source, `DurataIncalzireSensor`): `_hours_heating`, `_last_update`,
`_last_state`. -/
structure AccState where
  hours : ℚ
  lastUpdate : ℚ
  lastState : String
  deriving DecidableEq, Repr

/-- `StatisticaCentralaSensor.update` (sensor.py lines 113-131): reset the
running total if the day changed, THEN credit the elapsed interval when the
previously observed state was "heating", then record the new observation.
`action` is the hvac_action string read from the climate entity
(`STATE_UNAVAILABLE` / `STATE_UNKNOWN` when absent). -/
def sameDayUpdate (s : AccState) (now : ℚ) (action : String) : AccState :=
  let hoursAfterReset : ℚ := if dateOf now ≠ dateOf s.lastUpdate then 0 else s.hours
  let timeDiff : ℚ := (now - s.lastUpdate) / 3600
  { hours := if s.lastState = "heating" then hoursAfterReset + timeDiff else hoursAfterReset
    lastUpdate := now
    lastState := action }

/-- `DurataIncalzireSensor.update` (sensor.py lines 218-236): identical
algorithm to `sameDayUpdate`, reading its signal from the downstream
`sensor.thermostat_state` entity state string instead. -/
def durataUpdate (s : AccState) (now : ℚ) (action : String) : AccState :=
  let hoursAfterReset : ℚ := if dateOf now ≠ dateOf s.lastUpdate then 0 else s.hours
  let timeDiff : ℚ := (now - s.lastUpdate) / 3600
  { hours := if s.lastState = "heating" then hoursAfterReset + timeDiff else hoursAfterReset
    lastUpdate := now
    lastState := action }

/-- Mutable state of `StatisticaCentralaIeriSensor`: `_state` (yesterday total),
`_today_heating`, `_last_update`, `_last_state`. -/
structure IeriState where
  ystate : ℚ
  today : ℚ
  lastUpdate : ℚ
  lastState : String
  deriving DecidableEq, Repr

/-- `StatisticaCentralaIeriSensor.update` (sensor.py lines 173-190): credit the
elapsed interval to today FIRST when the previous state was "heating", THEN on
a day change move today into the yesterday slot and zero today. -/
def ieriUpdate (s : IeriState) (now : ℚ) (action : String) : IeriState :=
  let timeDiff : ℚ := (now - s.lastUpdate) / 3600
  let todayCredited : ℚ := if s.lastState = "heating" then s.today + timeDiff else s.today
  if dateOf now ≠ dateOf s.lastUpdate then
    { ystate := todayCredited, today := 0, lastUpdate := now, lastState := action }
  else
    { ystate := s.ystate, today := todayCredited, lastUpdate := now, lastState := action }

/-- Feed a sequence of observations `(now, action)` to a same-day accumulator. -/
def runSameDay (s : AccState) (obs : List (ℚ × String)) : AccState :=
  obs.foldl (fun st o => sameDayUpdate st o.1 o.2) s

/-- Feed a sequence of observations `(now, action)` to the yesterday-variant
accumulator. -/
def runIeri (s : IeriState) (obs : List (ℚ × String)) : IeriState :=
  obs.foldl (fun st o => ieriUpdate st o.1 o.2) s

/-- Python `round(x, 2)`, the rounding applied to the exposed/persisted state
value: round `100 * x` to the nearest integer, divide by 100. (Tie cases, where
Python uses round-half-to-even on binary floats, are not exercised here.) -/
def round2 (q : ℚ) : ℚ := (round (100 * q) : ℤ) / 100

/-- What `StatisticaCentralaSensor` exposes for persistence: the state value
(`round(self._hours_heating, 2)`) and the attributes `last_update` (isoformat,
exact round-trip) and `last_state`. -/
structure PersistedAcc where
  value : ℚ
  lastUpdate : ℚ
  lastState : String
  deriving DecidableEq, Repr

/-- Persist a same-day accumulator: `state` property plus
`extra_state_attributes` (sensor.py lines 102-111). -/
def persistSameDay (s : AccState) : PersistedAcc :=
  { value := round2 s.hours, lastUpdate := s.lastUpdate, lastState := s.lastState }

/-- `StatisticaCentralaSensor.async_added_to_hass` restore path (sensor.py
lines 90-100): load the persisted value and attributes verbatim. -/
def restoreSameDay (p : PersistedAcc) : AccState :=
  { hours := p.value, lastUpdate := p.lastUpdate, lastState := p.lastState }

/-- What `StatisticaCentralaIeriSensor` exposes for persistence: state value
`round(self._state, 2)` and attributes `today_heating` (rounded),
`last_update`, `last_state` (sensor.py lines 161-171). -/
structure PersistedIeri where
  value : ℚ
  today : ℚ
  lastUpdate : ℚ
  lastState : String
  deriving DecidableEq, Repr

/-- Persist the yesterday-variant accumulator. -/
def persistIeri (s : IeriState) : PersistedIeri :=
  { value := round2 s.ystate, today := round2 s.today
    lastUpdate := s.lastUpdate, lastState := s.lastState }

/-- `StatisticaCentralaIeriSensor.async_added_to_hass` restore path (sensor.py
lines 147-159). -/
def restoreIeri (p : PersistedIeri) : IeriState :=
  { ystate := p.value, today := p.today, lastUpdate := p.lastUpdate, lastState := p.lastState }

/-! ## Token extraction (custom_components/salus/climate.py, get_token)

A small backtracking matcher sufficient for the five regex patterns in the
source: sequences of character classes with one / star (greedy `*`) / plus
(greedy `+`) quantifiers and a single capture group. Greedy quantifiers
backtrack longest-first and search scans start positions left to right, which
reproduces Python `re.search` semantics for these patterns. Matching is
case-insensitive (`re.IGNORECASE`). -/

/-- One regex element: a character class with a quantifier. -/
inductive RElem where
  | one (p : Char → Bool)
  | star (p : Char → Bool)
  | plus (p : Char → Bool)

/-- Suffixes reachable by a greedy run of class-`p` characters, longest
consumption first (the backtracking order of a greedy quantifier). -/
def greedy (p : Char → Bool) : List Char → List (List Char)
  | [] => [[]]
  | c :: s => if p c then greedy p s ++ [c :: s] else [c :: s]

/-- Suffixes reachable by matching one element, in backtracking priority
order. -/
def elemMatches : RElem → List Char → List (List Char)
  | .one p, [] => []
  | .one p, c :: s => if p c then [s] else []
  | .star p, s => greedy p s
  | .plus p, [] => []
  | .plus p, c :: s => if p c then greedy p s else []

/-- Suffixes reachable by matching a sequence of elements, in backtracking
priority order. -/
def seqMatches : List RElem → List Char → List (List Char)
  | [], s => [s]
  | e :: es, s => (elemMatches e s).flatMap (seqMatches es)

/-- A pattern with exactly one capture group: the elements before, inside and
after the group (each of the five source patterns has this shape). -/
structure RPat where
  pre : List RElem
  grp : List RElem
  post : List RElem

/-- Match `pat` anchored at the start of `s`; return the capture of the group
for the highest-priority (greedy-backtracking) parse. -/
def matchAt (pat : RPat) (s : List Char) : Option (List Char) :=
  (seqMatches pat.pre s).findSome? fun r1 =>
    (seqMatches pat.grp r1).findSome? fun r2 =>
      (seqMatches pat.post r2).findSome? fun _ =>
        some (r1.take (r1.length - r2.length))

/-- `re.search`: try each start position left to right, return the first
match. -/
def searchPat (pat : RPat) : List Char → Option (List Char)
  | [] => matchAt pat []
  | c :: s =>
    match matchAt pat (c :: s) with
    | some t => some t
    | none => searchPat pat s

/-- A single-quote character (written by code point to keep source plain). -/
def squote : Char := Char.ofNat 39

/-- A double-quote character. -/
def dquote : Char := Char.ofNat 34

/-- Case-insensitive literal character class (`re.IGNORECASE`). -/
def litc (c : Char) : RElem := .one (fun x => x.toLower == c.toLower)

/-- The elements of a literal string. -/
def lits (s : String) : List RElem := s.toList.map litc

/-- The class `["\']` (either quote). -/
def isQuoteC (c : Char) : Bool := c == dquote || c == squote

/-- Python `\s`: the whitespace class. -/
def isWs (c : Char) : Bool :=
  c == ' ' || c == '\t' || c == '\n' || c == '\r' || c == '\x0b' || c == '\x0c'

/-- Pattern 1 (climate.py line 200): an `id="token"` input attribute,
`id=["\']token["\'][^>]*value=["\']([^"\']+)["\']`. -/
def patIdToken : RPat :=
  { pre := lits "id=" ++ [.one isQuoteC] ++ lits "token" ++
      [.one isQuoteC, .star (fun c => c != '>')] ++ lits "value=" ++ [.one isQuoteC]
    grp := [.plus (fun c => !isQuoteC c)]
    post := [.one isQuoteC] }

/-- Pattern 2 (line 201): a `name="token"` input attribute. -/
def patNameToken : RPat :=
  { pre := lits "name=" ++ [.one isQuoteC] ++ lits "token" ++
      [.one isQuoteC, .star (fun c => c != '>')] ++ lits "value=" ++ [.one isQuoteC]
    grp := [.plus (fun c => !isQuoteC c)]
    post := [.one isQuoteC] }

/-- Pattern 3 (line 202): a single-quoted JS object entry,
`token'\s*:\s*'([^']+)'`. -/
def patSQuoteToken : RPat :=
  { pre := lits "token" ++ [litc squote, .star isWs] ++ lits ":" ++ [.star isWs, litc squote]
    grp := [.plus (fun c => c != squote)]
    post := [litc squote] }

/-- Pattern 4 (line 203): a double-quoted JSON entry, `"token"\s*:\s*"([^"]+)"`. -/
def patDQuoteToken : RPat :=
  { pre := [litc dquote] ++ lits "token" ++ [litc dquote, .star isWs] ++ lits ":" ++
      [.star isWs, litc dquote]
    grp := [.plus (fun c => c != dquote)]
    post := [litc dquote] }

/-- Pattern 5 (line 204): a bare assignment, `token\s*=\s*['\"]([^'\"]+)['\"]`. -/
def patAssignToken : RPat :=
  { pre := lits "token" ++ [.star isWs] ++ lits "=" ++ [.star isWs, .one isQuoteC]
    grp := [.plus (fun c => !isQuoteC c)]
    post := [.one isQuoteC] }

/-- The ordered pattern list of `get_token` (climate.py lines 199-205). -/
def tokenPatterns : List RPat :=
  [patIdToken, patNameToken, patSQuoteToken, patDQuoteToken, patAssignToken]

/-- The pattern loop of `get_token` (climate.py lines 207-212): patterns are
tried in list order, the first that matches wins, and its first capture group
is the token. -/
def extractToken (html : List Char) : Option (List Char) :=
  tokenPatterns.findSome? (fun p => searchPat p html)

/-! ## Thermostat climate entity (custom_components/salus/climate.py) -/

/-- JSON values as returned by `ajax_device_values.php`: strings, integers,
null and booleans (float-typed JSON numbers are not needed by any claim and
their Python `str()` rendering is not modelled). -/
inductive JVal where
  | jstr (s : String)
  | jint (n : ℤ)
  | jnull
  | jbool (b : Bool)
  deriving DecidableEq, Repr

/-- Python `str()` of a JSON value. -/
def pyStr : JVal → String
  | .jstr s => s
  | .jint n => toString n
  | .jnull => "None"
  | .jbool b => if b then "True" else "False"

/-- Value of decimal digit characters, `none` when some character is not a
digit; the empty list parses to 0 (so that `float("1.")` and `float(".5")`
behave as in Python). -/
def parseDigitsQ (intPart frac : List Char) : Option ℚ :=
  if intPart.isEmpty && frac.isEmpty then none
  else if intPart.all Char.isDigit && frac.all Char.isDigit then
    some ((intPart.foldl (fun a c => a * 10 + (c.toNat - 48)) 0 : ℕ) +
      (frac.foldl (fun a c => a * 10 + (c.toNat - 48)) 0 : ℕ) / (10 ^ frac.length : ℚ))
  else none

/-- Python `float(s)` on the decimal strings we model: optional sign, integer
digits, optional fraction; `none` when the string does not parse (the
`except` path of the temperature conversion). -/
def parseDecimal (s : String) : Option ℚ :=
  match s.toList with
  | [] => none
  | c :: tl =>
    let body := if c = '-' || c = '+' then tl else c :: tl
    let sign : ℚ := if c = '-' then -1 else 1
    if body.isEmpty then none
    else
      let ip := body.takeWhile (fun x => x != '.')
      match body.drop ip.length with
      | [] => (parseDigitsQ ip []).map (fun q => sign * q)
      | _ :: frac =>
        if frac.contains '.' then none
        else (parseDigitsQ ip frac).map (fun q => sign * q)

/-- Python `float(x)` over JSON values, with exceptions mapped to `none`
(matching the `try/except` blocks that store `None` on failure):
`float(None)` and non-numeric strings raise, `float(bool)` is 0 or 1. -/
def pyFloat : Option JVal → Option ℚ
  | none => none
  | some (.jstr s) => parseDecimal s
  | some (.jint n) => some (n : ℚ)
  | some .jnull => none
  | some (.jbool b) => some (if b then 1 else 0)

/-- `data.get(k)`: the binding of `k` in the parsed JSON object. -/
def jGet (m : List (String × JVal)) (k : String) : Option JVal :=
  (m.find? (fun kv => kv.1 == k)).map Prod.snd

/-- `data.get(k, d)`: lookup with a default for a missing key. -/
def jGetD (m : List (String × JVal)) (k : String) (d : JVal) : JVal :=
  (jGet m k).getD d

/-- Mutable fields of `SalusThermostat` (climate.py `__init__`, lines 61-78).
The token is kept as the character list captured from the control-page HTML.
There is no availability field: the class defines none. -/
structure ThermoState where
  currentTemp : Option ℚ
  targetTemp : Option ℚ
  mode : Option String
  heatRaw : Option String
  isHeating : Option Bool
  status : Option String
  token : Option (List Char)
  tokenTs : Option ℤ
  deriving DecidableEq, Repr

/-- `SalusThermostat.__init__`: every field starts unset. -/
def initThermo : ThermoState :=
  { currentTemp := none, targetTemp := none, mode := none, heatRaw := none,
    isHeating := none, status := none, token := none, tokenTs := none }

/-- Environment of one `get_token` call: whether an exception was raised
mid-flight (caught by the surrounding `try/except`), whether the login POST
was truthy with status in (200, 302), whether the control-page fetch was
truthy with status 200, and the control-page HTML. -/
structure TokenEnv where
  exc : Bool
  loginOk : Bool
  ctrlOk : Bool
  html : List Char

/-- `SalusThermostat.get_token` (climate.py lines 172-225): never raises (the
body is wrapped in `try/except`); stores a token and its timestamp only when
login and control-page fetch succeed and a pattern captures a non-empty
(truthy) token; otherwise the state is unchanged. -/
def pyGetToken (s : ThermoState) (env : TokenEnv) (now : ℤ) : ThermoState :=
  if env.exc then s
  else if !env.loginOk then s
  else if !env.ctrlOk then s
  else
    match extractToken env.html with
    | none => s
    | some t => if t.isEmpty then s else { s with token := some t, tokenTs := some now }

/-- The token-refresh condition opening `_get_data` (climate.py line 260):
`self._token is None or (cur_timestamp - (self._token_timestamp or 0)) > 3600`. -/
def loginTriggered (s : ThermoState) (now : ℤ) : Bool :=
  s.token.isNone || decide (3600 < now - s.tokenTs.getD 0)

/-- Result of `r.json() or {}`: either the JSON parse raised, or it produced
an object (empty for any falsy parse result such as `null` or `{}`). -/
inductive JRes where
  | raisesJson
  | parsed (m : List (String × JVal))

/-- Outcome of the status GET: a transport-level exception (timeout,
connection error), or a response with a status code and a body. A falsy
response object (`not r`, status ≥ 400) falls in the same branch as
`status != 200`. -/
inductive HttpOutcome where
  | raisesGet
  | resp (status : ℕ) (body : JRes)

/-- Field mapping of a successful read (climate.py lines 278-297). -/
def applyData (s : ThermoState) (m : List (String × JVal)) : ThermoState :=
  let modeRaw := pyStr (jGetD m "CH1heatOnOff" (.jstr "1"))
  let raw := pyStr (jGetD m "CH1heatOnOffStatus" (.jstr "0"))
  let isH := raw == "1"
  { s with
    targetTemp := pyFloat (jGet m "CH1currentSetPoint")
    currentTemp := pyFloat (jGet m "CH1currentRoomTemp")
    mode := some (if modeRaw == "1" then "OFF" else "ON")
    heatRaw := some raw
    isHeating := some isH
    status := some (if isH then "ON" else "OFF") }

/-- `SalusThermostat._get_data` (climate.py lines 254-297): refresh the token
when missing or stale, abort (log only) without one, then GET and parse.
Returns the new state and whether an exception propagated out (`true` for a
transport exception on the GET or a JSON-parse exception; the checked failure
paths — non-200 status, empty parsed body, no token — log and return early). -/
def getData (s : ThermoState) (now : ℤ) (tenv : TokenEnv) (env : HttpOutcome) :
    ThermoState × Bool :=
  let s1 := if loginTriggered s now then pyGetToken s tenv now else s
  if s1.token.isNone then (s1, false)
  else
    match env with
    | .raisesGet => (s1, true)
    | .resp status body =>
      if status ≠ 200 then (s1, false)
      else
        match body with
        | .raisesJson => (s1, true)
        | .parsed m => if m.isEmpty then (s1, false) else (applyData s1 m, false)

/-- `SalusThermostat.update` (climate.py lines 299-301): delegates to
`_get_data`. -/
def thermoUpdate (s : ThermoState) (now : ℤ) (tenv : TokenEnv) (env : HttpOutcome) :
    ThermoState × Bool :=
  getData s now tenv env

/-- Outcome of the POST in `_set_data`. -/
inductive PostOutcome where
  | raisesPost
  | resp (status : ℕ)

/-- `SalusThermostat._set_data` (climate.py lines 231-252): refresh the token
when absent, abort (log only) without one, then POST `token`, `devId`,
`heatOnOff` (`"1"` if `off` else `"0"`) and `currentSetPoint`; a non-200
response is only logged, a transport exception propagates (second component
`true`). Local temperatures and mode are never touched. -/
def setData (s : ThermoState) (temperature : Option ℚ) (off : Bool) (tenv : TokenEnv)
    (now : ℤ) (post : PostOutcome) : ThermoState × Bool :=
  let s1 := if s.token.isNone then pyGetToken s tenv now else s
  if s1.token.isNone then (s1, false)
  else
    match post with
    | .raisesPost => (s1, true)
    | .resp _ => (s1, false)

/-- `SalusThermostat.set_temperature` (climate.py lines 154-158): record the
requested target locally FIRST, then attempt the remote write. -/
def setTemperature (s : ThermoState) (t : ℚ) (tenv : TokenEnv) (now : ℤ)
    (post : PostOutcome) : ThermoState × Bool :=
  setData { s with targetTemp := some t } (some t) false tenv now post

/-- `SalusThermostat.turn_off` (climate.py lines 160-162): record mode OFF
locally first, then write with the retained target temperature. -/
def turnOff (s : ThermoState) (tenv : TokenEnv) (now : ℤ) (post : PostOutcome) :
    ThermoState × Bool :=
  setData { s with mode := some "OFF" } s.targetTemp true tenv now post

/-- `SalusThermostat.turn_on` (climate.py lines 164-166). -/
def turnOn (s : ThermoState) (tenv : TokenEnv) (now : ℤ) (post : PostOutcome) :
    ThermoState × Bool :=
  setData { s with mode := some "ON" } s.targetTemp false tenv now post

/-- The `HVACMode` values used by the entity. -/
inductive HMode where
  | off
  | heat
  deriving DecidableEq, Repr

/-- The `HVACAction` values used by the entity. -/
inductive HAction where
  | off
  | heating
  | idle
  deriving DecidableEq, Repr

/-- `hvac_mode` property (climate.py lines 116-120). -/
def hvacMode (s : ThermoState) : HMode :=
  if s.mode = some "OFF" then .off else .heat

/-- `hvac_action` property (climate.py lines 126-144): OFF when the commanded
mode is OFF; else device truth (`_is_heating`) when known; else the
temperature-comparison fallback when both temperatures are known; else IDLE. -/
def hvacAction (s : ThermoState) : HAction :=
  if hvacMode s = .off then .off
  else
    match s.isHeating with
    | some b => if b then .heating else .idle
    | none =>
      match s.targetTemp, s.currentTemp with
      | some tt, some ct => if ct < tt then .heating else .idle
      | _, _ => .idle

/-- The two thermostat states agree on every observable snapshot field, i.e.
everything except the auth token and its timestamp. -/
def snapshotEq (a b : ThermoState) : Prop :=
  a.currentTemp = b.currentTemp ∧ a.targetTemp = b.targetTemp ∧ a.mode = b.mode ∧
  a.heatRaw = b.heatRaw ∧ a.isHeating = b.isHeating ∧ a.status = b.status

/-- C1 counterexample: in the same-day variant the reset runs BEFORE the
elapsed interval is credited, so a boundary tick with previous state "heating"
leaves the new day with the whole boundary interval (here 1 hour), not 0.
State: total 1h, last observation 30 min before midnight of day 0, observed
state "heating"; tick 30 min after midnight. The claim demands a post-boundary
total of exactly 0; the code produces 1. -/
theorem c1_counterexample :
    dateOf 88200 ≠ dateOf ((⟨1, 84600, "heating"⟩ : AccState).lastUpdate) ∧
    (sameDayUpdate ⟨1, 84600, "heating"⟩ 88200 "idle").hours = 1 := by
  constructor
  · norm_num [dateOf]
  · norm_num [sameDayUpdate, dateOf]

/-- C1 (amended): on a date-boundary tick, the yesterday variant credits the
elapsed interval to the old day before the rollover (new day restarts at 0 and
the old-day slot receives the pre-boundary accumulation plus the boundary
interval when the previous state was HEATING), and repeating the tick at the
same instant changes nothing; the same-day and alternate-signal variants
instead reset BEFORE crediting, so after a boundary tick their running total
equals the boundary interval (when the previous state was HEATING) rather
than 0. -/
theorem c1_amended :
    (∀ (s : AccState) (now : ℚ) (a : String), dateOf now ≠ dateOf s.lastUpdate →
      (sameDayUpdate s now a).hours =
        (if s.lastState = "heating" then (now - s.lastUpdate) / 3600 else 0)) ∧
    (∀ (s : AccState) (now : ℚ) (a : String), dateOf now ≠ dateOf s.lastUpdate →
      (durataUpdate s now a).hours =
        (if s.lastState = "heating" then (now - s.lastUpdate) / 3600 else 0)) ∧
    (∀ (s : IeriState) (now : ℚ) (a : String), dateOf now ≠ dateOf s.lastUpdate →
      (ieriUpdate s now a).today = 0 ∧
      (ieriUpdate s now a).ystate =
        s.today + (if s.lastState = "heating" then (now - s.lastUpdate) / 3600 else 0)) ∧
    (∀ (s : IeriState) (now : ℚ) (a b : String),
      (ieriUpdate (ieriUpdate s now a) now b).ystate = (ieriUpdate s now a).ystate ∧
      (ieriUpdate (ieriUpdate s now a) now b).today = (ieriUpdate s now a).today) := by
  refine ⟨?_, ?_, ?_, ?_⟩
  · intro s now a h
    simp only [sameDayUpdate, if_pos h]
    split <;> ring
  · intro s now a h
    simp only [durataUpdate, if_pos h]
    split <;> ring
  · intro s now a h
    refine ⟨?_, ?_⟩
    · simp [ieriUpdate, if_pos h]
    · simp only [ieriUpdate, if_pos h]
      split <;> ring
  · intro s now a b
    simp only [ieriUpdate]
    split <;> simp

/-- C1 amended witness: boundary tick, previous state "heating", interval of
one hour crossing midnight. -/
theorem c1_witness :
    (sameDayUpdate ⟨5, 84600, "heating"⟩ 88200 "idle").hours = 1 ∧
    (ieriUpdate ⟨2, 5, 84600, "heating"⟩ 88200 "idle").today = 0 ∧
    (ieriUpdate ⟨2, 5, 84600, "heating"⟩ 88200 "idle").ystate = 6 := by
  have h1 := c1_amended.1 ⟨5, 84600, "heating"⟩ 88200 "idle" (by norm_num [dateOf])
  have h3 := c1_amended.2.2.1 ⟨2, 5, 84600, "heating"⟩ 88200 "idle" (by norm_num [dateOf])
  norm_num at h1 h3
  exact ⟨h1, h3.1, h3.2⟩

/-- C2: within one calendar day each update credits the elapsed interval since
the previous observation using the PREVIOUSLY observed state; in particular
the scenario t0 IDLE, t0+30min HEATING, t0+90min IDLE ends with a running
total of exactly 1.0 hours. -/
theorem c2_state_before_interval :
    (∀ (s : AccState) (now : ℚ) (a : String), dateOf now = dateOf s.lastUpdate →
      (sameDayUpdate s now a).hours =
        s.hours + (if s.lastState = "heating" then (now - s.lastUpdate) / 3600 else 0)) ∧
    (runSameDay ⟨0, 0, "unknown"⟩ [(0, "idle"), (1800, "heating"), (5400, "idle")]).hours = 1 := by
  constructor
  · intro s now a h
    simp only [sameDayUpdate, h, ne_eq, not_true_eq_false, if_false, ite_not]
    split <;> ring
  · norm_num [runSameDay, List.foldl, sameDayUpdate, dateOf]
    decide

/-- C2 witness: the same-day crediting rule applied to a concrete in-day tick
with previous state "heating". -/
theorem c2_witness :
    (sameDayUpdate ⟨1/2, 0, "heating"⟩ 1800 "idle").hours = 1 := by
  have h := c2_state_before_interval.1 ⟨(1:ℚ)/2, 0, "heating"⟩ 1800 "idle" (by norm_num [dateOf])
  norm_num at h
  exact h

/-- C5 counterexample: the persisted state value is `round(x, 2)`, so restore
is lossy. An accumulator holding 0.001 h persists as 0.0; after one identical
in-day heating hour the restarted instance reads 1.0 while the never-restarted
one reads 1.001. -/
theorem c5_counterexample :
    (runSameDay (restoreSameDay (persistSameDay ⟨1/1000, 0, "heating"⟩)) [(3600, "idle")]).hours ≠
    (runSameDay ⟨1/1000, 0, "heating"⟩ [(3600, "idle")]).hours := by
  norm_num [runSameDay, List.foldl, restoreSameDay, persistSameDay, round2, round_eq,
    sameDayUpdate, dateOf]

/-- C5 (amended): restore after persist is the identity — and hence any
identical subsequent observation sequence yields identical running totals —
provided the running totals are exactly representable at two decimals (the
precision of the persisted state value); `last_update` and `last_state` always
round-trip verbatim. -/
theorem c5_amended (s : AccState) (si : IeriState)
    (hs : round2 s.hours = s.hours) (h1 : round2 si.ystate = si.ystate)
    (h2 : round2 si.today = si.today) :
    restoreSameDay (persistSameDay s) = s ∧ restoreIeri (persistIeri si) = si ∧
    (∀ obs, runSameDay (restoreSameDay (persistSameDay s)) obs = runSameDay s obs) ∧
    (∀ obs, runIeri (restoreIeri (persistIeri si)) obs = runIeri si obs) := by
  have e1 : restoreSameDay (persistSameDay s) = s := by
    simp [restoreSameDay, persistSameDay, hs]
  have e2 : restoreIeri (persistIeri si) = si := by
    simp [restoreIeri, persistIeri, h1, h2]
  exact ⟨e1, e2, fun obs => by rw [e1], fun obs => by rw [e2]⟩

/-- C5 amended witness: totals exact at two decimals restore verbatim. -/
theorem c5_witness :
    restoreSameDay (persistSameDay ⟨1/4, 0, "heating"⟩) = (⟨1/4, 0, "heating"⟩ : AccState) ∧
    restoreIeri (persistIeri ⟨1/2, 3/4, 0, "idle"⟩) = (⟨1/2, 3/4, 0, "idle"⟩ : IeriState) := by
  have h := c5_amended ⟨1/4, 0, "heating"⟩ ⟨1/2, 3/4, 0, "idle"⟩
    (by norm_num [round2, round_eq]) (by norm_num [round2, round_eq])
    (by norm_num [round2, round_eq])
  exact ⟨h.1, h.2.1⟩

/-- `get_token` never changes the observable snapshot fields: it only ever
writes the token and its timestamp. -/
theorem pyGetToken_keeps_snapshot (s : ThermoState) (env : TokenEnv) (now : ℤ) :
    snapshotEq (pyGetToken s env now) s := by
  have hrefl : ∀ x : ThermoState, snapshotEq x x := fun x => ⟨rfl, rfl, rfl, rfl, rfl, rfl⟩
  unfold pyGetToken
  split
  · exact hrefl s
  split
  · exact hrefl s
  split
  · exact hrefl s
  split
  · exact hrefl s
  · split
    · exact hrefl s
    · exact ⟨rfl, rfl, rfl, rfl, rfl, rfl⟩

/-- The state actually used for the read: the result of the conditional token
refresh at the top of `_get_data`. -/
theorem refreshed_keeps_snapshot (s : ThermoState) (tenv : TokenEnv) (now : ℤ) :
    snapshotEq (if loginTriggered s now then pyGetToken s tenv now else s) s := by
  split
  · exact pyGetToken_keeps_snapshot s tenv now
  · exact ⟨rfl, rfl, rfl, rfl, rfl, rfl⟩

/-- C3 counterexample: with a fresh token cached, a transport-level exception
(timeout / connection error) on the status GET propagates out of
`update` — `_get_data` has no `try/except` around the GET — contradicting
"never raises or propagates an error to its caller". -/
theorem c3_counterexample :
    (thermoUpdate { initThermo with token := some [Char.ofNat 116], tokenTs := some 0 } 10
      ⟨false, true, true, []⟩ HttpOutcome.raisesGet).2 = true := by
  rfl

/-- C3 (amended): the failure modes that `_get_data` checks explicitly — no
token obtainable, a non-200 (or falsy) response, and an empty/falsy parsed
JSON body — are handled without raising (logged, early return) and leave the
stale snapshot retained (every observable field unchanged; only the auth
token fields may change via the refresh attempt); but a transport exception
during the GET and a JSON-parse exception propagate to the caller of
`update`. -/
theorem c3_amended (s : ThermoState) (now : ℤ) (tenv : TokenEnv) :
    (∀ env, (if loginTriggered s now then pyGetToken s tenv now else s).token = none →
      (thermoUpdate s now tenv env).2 = false ∧
      snapshotEq (thermoUpdate s now tenv env).1 s) ∧
    (∀ status body, status ≠ 200 →
      (thermoUpdate s now tenv (.resp status body)).2 = false ∧
      snapshotEq (thermoUpdate s now tenv (.resp status body)).1 s) ∧
    (∀ status, (thermoUpdate s now tenv (.resp status (.parsed []))).2 = false ∧
      snapshotEq (thermoUpdate s now tenv (.resp status (.parsed []))).1 s) ∧
    ((if loginTriggered s now then pyGetToken s tenv now else s).token ≠ none →
      (thermoUpdate s now tenv .raisesGet).2 = true ∧
      (thermoUpdate s now tenv (.resp 200 .raisesJson)).2 = true) := by
  have hsnap := refreshed_keeps_snapshot s tenv now
  refine ⟨?_, ?_, ?_, ?_⟩
  · intro env h
    have hn : (if loginTriggered s now then pyGetToken s tenv now else s).token.isNone = true :=
      Option.isNone_iff_eq_none.mpr h
    exact ⟨by simp [thermoUpdate, getData, hn],
      by simpa [thermoUpdate, getData, hn] using hsnap⟩
  · intro status body hst
    by_cases hn : (if loginTriggered s now then pyGetToken s tenv now else s).token.isNone
    · exact ⟨by simp [thermoUpdate, getData, hn],
        by simpa [thermoUpdate, getData, hn] using hsnap⟩
    · exact ⟨by simp [thermoUpdate, getData, hn, hst],
        by simpa [thermoUpdate, getData, hn, hst] using hsnap⟩
  · intro status
    by_cases hn : (if loginTriggered s now then pyGetToken s tenv now else s).token.isNone
    · exact ⟨by simp [thermoUpdate, getData, hn],
        by simpa [thermoUpdate, getData, hn] using hsnap⟩
    · by_cases hst : status = 200
      · subst hst
        exact ⟨by simp [thermoUpdate, getData, hn],
          by simpa [thermoUpdate, getData, hn] using hsnap⟩
      · exact ⟨by simp [thermoUpdate, getData, hn, hst],
          by simpa [thermoUpdate, getData, hn, hst] using hsnap⟩
  · intro h
    have hn : (if loginTriggered s now then pyGetToken s tenv now else s).token.isNone = false := by
      cases hx : (if loginTriggered s now then pyGetToken s tenv now else s).token with
      | none => exact absurd hx h
      | some t => simp [hx]
    constructor
    · simp [thermoUpdate, getData, hn]
    · simp [thermoUpdate, getData, hn]

/-- C3 amended witness: a cached fresh token; a 500 response and an empty
body are handled with the snapshot retained, a JSON-parse exception
propagates. -/
theorem c3_witness :
    (thermoUpdate { initThermo with token := some [Char.ofNat 116], tokenTs := some 0 } 10
      ⟨false, true, true, []⟩ (.resp 500 (.parsed [("k", .jstr "v")]))).2 = false ∧
    snapshotEq (thermoUpdate { initThermo with token := some [Char.ofNat 116], tokenTs := some 0 }
      10 ⟨false, true, true, []⟩ (.resp 500 (.parsed [("k", .jstr "v")]))).1
      { initThermo with token := some [Char.ofNat 116], tokenTs := some 0 } ∧
    (thermoUpdate { initThermo with token := some [Char.ofNat 116], tokenTs := some 0 } 10
      ⟨false, true, true, []⟩ (.resp 200 (.parsed []))).2 = false ∧
    (thermoUpdate { initThermo with token := some [Char.ofNat 116], tokenTs := some 0 } 10
      ⟨false, true, true, []⟩ (.resp 200 .raisesJson)).2 = true := by
  have h := c3_amended { initThermo with token := some [Char.ofNat 116], tokenTs := some 0 } 10
    ⟨false, true, true, []⟩
  exact ⟨(h.2.1 500 _ (by decide)).1, (h.2.1 500 _ (by decide)).2, (h.2.2.1 200).1,
    (h.2.2.2 (by decide)).2⟩

/-- C4 counterexample: after a successful read has set both temperatures, a
failed read (here status 500) returns with the ENTIRE state unchanged — and
`SalusThermostat` defines no availability field at all (see `ThermoState`,
which carries every instance field of the class), so no availability flag
flips to false as the claim requires. -/
theorem c4_counterexample :
    (thermoUpdate
      ⟨some 20, some 21, some "ON", some "0", some false, some "OFF", some [Char.ofNat 116], some 0⟩
      100 ⟨false, true, true, []⟩ (.resp 500 (.parsed [("x", .jstr "y")]))).1 =
    ⟨some 20, some 21, some "ON", some "0", some false, some "OFF", some [Char.ofNat 116], some 0⟩ := by
  rfl

/-- C4 (amended): every failed read — non-200/falsy response, empty parsed
body, JSON-parse exception on any status (the exception fires before any
field assignment), transport exception, or no token under any response —
leaves every observable snapshot field (in particular `current_temperature`
and `target_temperature`) exactly as it was; no availability flag exists to
flip, the state can differ only in the auth token fields refreshed by
`get_token`. -/
theorem c4_amended (s : ThermoState) (now : ℤ) (tenv : TokenEnv) :
    (∀ status body, status ≠ 200 →
      snapshotEq (thermoUpdate s now tenv (.resp status body)).1 s) ∧
    (∀ status, snapshotEq (thermoUpdate s now tenv (.resp status (.parsed []))).1 s) ∧
    (∀ status, snapshotEq (thermoUpdate s now tenv (.resp status .raisesJson)).1 s) ∧
    snapshotEq (thermoUpdate s now tenv .raisesGet).1 s ∧
    (∀ env, (if loginTriggered s now then pyGetToken s tenv now else s).token = none →
      snapshotEq (thermoUpdate s now tenv env).1 s) := by
  have hsnap := refreshed_keeps_snapshot s tenv now
  refine ⟨?_, ?_, ?_, ?_, ?_⟩
  · intro status body hst
    by_cases hn : (if loginTriggered s now then pyGetToken s tenv now else s).token.isNone
    · simpa [thermoUpdate, getData, hn] using hsnap
    · simpa [thermoUpdate, getData, hn, hst] using hsnap
  · intro status
    by_cases hn : (if loginTriggered s now then pyGetToken s tenv now else s).token.isNone
    · simpa [thermoUpdate, getData, hn] using hsnap
    · by_cases hst : status = 200
      · subst hst
        simpa [thermoUpdate, getData, hn] using hsnap
      · simpa [thermoUpdate, getData, hn, hst] using hsnap
  · intro status
    by_cases hn : (if loginTriggered s now then pyGetToken s tenv now else s).token.isNone
    · simpa [thermoUpdate, getData, hn] using hsnap
    · by_cases hst : status = 200
      · subst hst
        simpa [thermoUpdate, getData, hn] using hsnap
      · simpa [thermoUpdate, getData, hn, hst] using hsnap
  · by_cases hn : (if loginTriggered s now then pyGetToken s tenv now else s).token.isNone
    · simpa [thermoUpdate, getData, hn] using hsnap
    · simpa [thermoUpdate, getData, hn] using hsnap
  · intro env h
    have hn : (if loginTriggered s now then pyGetToken s tenv now else s).token.isNone = true :=
      Option.isNone_iff_eq_none.mpr h
    simpa [thermoUpdate, getData, hn] using hsnap

/-- C4 amended witness: concrete populated snapshot; a failed (500) read and
a JSON-parse exception on a 200 response both retain the snapshot. -/
theorem c4_witness :
    snapshotEq
      (thermoUpdate
        ⟨some 19, some 22, some "ON", some "1", some true, some "ON", some [Char.ofNat 116], some 0⟩
        100 ⟨false, true, true, []⟩ (.resp 500 (.parsed [("x", .jstr "y")]))).1
      ⟨some 19, some 22, some "ON", some "1", some true, some "ON", some [Char.ofNat 116], some 0⟩ ∧
    snapshotEq
      (thermoUpdate
        ⟨some 19, some 22, some "ON", some "1", some true, some "ON", some [Char.ofNat 116], some 0⟩
        100 ⟨false, true, true, []⟩ (.resp 200 .raisesJson)).1
      ⟨some 19, some 22, some "ON", some "1", some true, some "ON", some [Char.ofNat 116], some 0⟩ := by
  have h := c4_amended
    ⟨some 19, some 22, some "ON", some "1", some true, some "ON", some [Char.ofNat 116], some 0⟩
    100 ⟨false, true, true, []⟩
  exact ⟨h.1 500 _ (by decide), h.2.2.1 200⟩

/-- C6: the token-refresh predicate at the top of `_get_data` fires for a
null token and for ages strictly above 3600 s (so 3601 triggers a login,
3599 and any age up to 3600 do not), and when it does not fire the read
proceeds with the cached token unchanged (no login call). -/
theorem c6_token_refresh (s : ThermoState) (tok : List Char) (issued now : ℤ)
    (htok : s.token = some tok) (hts : s.tokenTs = some issued) :
    (now - issued = 3601 → loginTriggered s now = true) ∧
    (now - issued = 3599 → loginTriggered s now = false) ∧
    (now - issued ≤ 3600 → loginTriggered s now = false) ∧
    (∀ s2 : ThermoState, s2.token = none → loginTriggered s2 now = true) ∧
    (loginTriggered s now = false → ∀ tenv env,
      (thermoUpdate s now tenv env).1.token = s.token ∧
      (thermoUpdate s now tenv env).1.tokenTs = s.tokenTs) := by
  refine ⟨?_, ?_, ?_, ?_, ?_⟩
  · intro h
    simp only [loginTriggered, htok, hts, Option.isNone_some, Bool.false_or, Option.getD_some,
      decide_eq_true_eq]
    omega
  · intro h
    simp only [loginTriggered, htok, hts, Option.isNone_some, Bool.false_or, Option.getD_some,
      decide_eq_false_iff_not]
    omega
  · intro h
    simp only [loginTriggered, htok, hts, Option.isNone_some, Bool.false_or, Option.getD_some,
      decide_eq_false_iff_not]
    omega
  · intro s2 h2
    simp [loginTriggered, h2]
  · intro h tenv env
    have hn : ((if loginTriggered s now then pyGetToken s tenv now else s)) = s := by
      simp [h]
    cases env with
    | raisesGet =>
      simp [thermoUpdate, getData, hn]
      split <;> simp
    | resp status body =>
      by_cases hno : s.token.isNone
      · simp [thermoUpdate, getData, hn, hno]
      · cases body with
        | raisesJson =>
          by_cases hst : status = 200
          · subst hst; simp [thermoUpdate, getData, hn, hno]
          · simp [thermoUpdate, getData, hn, hno, hst]
        | parsed m =>
          by_cases hst : status = 200
          · subst hst
            by_cases hm : m.isEmpty
            · simp [thermoUpdate, getData, hn, hno, hm]
            · simp [thermoUpdate, getData, hn, hno, hm, applyData]
          · simp [thermoUpdate, getData, hn, hno, hst]

/-- C6 witness: token aged 3601 s refreshes, 3599 s and 3600 s do not, and a
null token always triggers login. -/
theorem c6_witness :
    loginTriggered { initThermo with token := some [Char.ofNat 116], tokenTs := some 0 } 3601 = true ∧
    loginTriggered { initThermo with token := some [Char.ofNat 116], tokenTs := some 0 } 3599 = false ∧
    loginTriggered { initThermo with token := some [Char.ofNat 116], tokenTs := some 0 } 3600 = false ∧
    loginTriggered initThermo 5 = true := by
  refine ⟨?_, ?_, ?_, ?_⟩
  · exact (c6_token_refresh _ [Char.ofNat 116] 0 3601 rfl rfl).1 (by decide)
  · exact (c6_token_refresh _ [Char.ofNat 116] 0 3599 rfl rfl).2.1 (by decide)
  · exact (c6_token_refresh _ [Char.ofNat 116] 0 3600 rfl rfl).2.2.1 (by decide)
  · exact (c6_token_refresh { initThermo with token := some [Char.ofNat 116], tokenTs := some 0 }
      [Char.ofNat 116] 0 5 rfl rfl).2.2.2.1 initThermo rfl

/-- C8: on a successful read (fresh token, status 200, non-empty parsed
body), the derived operation mode is OFF exactly when the stringified
`CH1heatOnOff` field (default `"1"` when missing) is the literal `"1"`, and
ON otherwise; `is_heating` is true exactly when the stringified
`CH1heatOnOffStatus` field (default `"0"`) is `"1"`. -/
theorem c8_mode_mapping (s : ThermoState) (now : ℤ) (tenv : TokenEnv)
    (m : List (String × JVal)) (hm : ¬ m.isEmpty = true)
    (tok : List Char) (issued : ℤ) (htok : s.token = some tok) (hts : s.tokenTs = some issued)
    (hfresh : now - issued ≤ 3600) :
    ((thermoUpdate s now tenv (.resp 200 (.parsed m))).1.mode = some "OFF" ↔
      pyStr (jGetD m "CH1heatOnOff" (.jstr "1")) = "1") ∧
    ((thermoUpdate s now tenv (.resp 200 (.parsed m))).1.mode = some "OFF" ∨
      (thermoUpdate s now tenv (.resp 200 (.parsed m))).1.mode = some "ON") ∧
    ((thermoUpdate s now tenv (.resp 200 (.parsed m))).1.isHeating = some true ↔
      pyStr (jGetD m "CH1heatOnOffStatus" (.jstr "0")) = "1") ∧
    ((thermoUpdate s now tenv (.resp 200 (.parsed m))).1.isHeating = some true ∨
      (thermoUpdate s now tenv (.resp 200 (.parsed m))).1.isHeating = some false) := by
  have hlt : loginTriggered s now = false := by
    simp only [loginTriggered, htok, hts, Option.isNone_some, Bool.false_or, Option.getD_some,
      decide_eq_false_iff_not]
    omega
  have hn : s.token.isNone = false := by simp [htok]
  have hres : (thermoUpdate s now tenv (.resp 200 (.parsed m))).1 = applyData s m := by
    simp [thermoUpdate, getData, hlt, hn, hm]
  rw [hres]
  refine ⟨?_, ?_, ?_, ?_⟩
  · by_cases hflag : pyStr (jGetD m "CH1heatOnOff" (.jstr "1")) = "1"
    · simp [applyData, hflag]
    · simp [applyData, hflag]
  · by_cases hflag : pyStr (jGetD m "CH1heatOnOff" (.jstr "1")) = "1"
    · left
      simp [applyData, hflag]
    · right
      simp [applyData, hflag]
  · by_cases hflag : pyStr (jGetD m "CH1heatOnOffStatus" (.jstr "0")) = "1"
    · simp [applyData, hflag]
    · simp [applyData, hflag]
  · by_cases hflag : pyStr (jGetD m "CH1heatOnOffStatus" (.jstr "0")) = "1"
    · left
      simp [applyData, hflag]
    · right
      simp [applyData, hflag]

/-- C8 witness: raw mode flag "1" maps to OFF and raw heating-output "1" to
is_heating = true on a concrete successful read. -/
theorem c8_witness :
    (thermoUpdate { initThermo with token := some [Char.ofNat 116], tokenTs := some 0 } 10
      ⟨false, true, true, []⟩
      (.resp 200 (.parsed [("CH1heatOnOff", .jstr "1"), ("CH1heatOnOffStatus", .jstr "1")]))).1.mode =
      some "OFF" ∧
    (thermoUpdate { initThermo with token := some [Char.ofNat 116], tokenTs := some 0 } 10
      ⟨false, true, true, []⟩
      (.resp 200 (.parsed [("CH1heatOnOff", .jstr "1"), ("CH1heatOnOffStatus", .jstr "1")]))).1.isHeating =
      some true := by
  have h := c8_mode_mapping
    { initThermo with token := some [Char.ofNat 116], tokenTs := some 0 } 10
    ⟨false, true, true, []⟩
    [("CH1heatOnOff", .jstr "1"), ("CH1heatOnOffStatus", .jstr "1")]
    (by decide) [Char.ofNat 116] 0 rfl rfl (by decide)
  exact ⟨h.1.mpr (by decide), h.2.2.1.mpr (by decide)⟩

/-- C9 counterexample: a transport exception during the write POST propagates
out of `set_temperature` (second component true) rather than being only a
logged error — though the optimistic local target survives. -/
theorem c9_counterexample :
    (setTemperature ⟨none, none, none, none, none, none, some [Char.ofNat 116], some 0⟩ 21
      ⟨false, true, true, []⟩ 0 .raisesPost).2 = true ∧
    (setTemperature ⟨none, none, none, none, none, none, some [Char.ofNat 116], some 0⟩ 21
      ⟨false, true, true, []⟩ 0 .raisesPost).1.targetTemp = some 21 := by
  exact ⟨rfl, rfl⟩

/-- C9 (amended): the locally recorded target temperature (resp. operation
mode) is set to the requested value and never rolled back, whatever the write
outcome; a write failing with a non-200 response (or for lack of a token) is
only logged, and the only way an error propagates out of a write is a
transport exception on the POST itself. -/
theorem c9_amended (s : ThermoState) (t : ℚ) (tenv : TokenEnv) (now : ℤ) :
    (∀ post, (setTemperature s t tenv now post).1.targetTemp = some t ∧
      (turnOff s tenv now post).1.mode = some "OFF" ∧
      (turnOn s tenv now post).1.mode = some "ON") ∧
    (∀ status, (setTemperature s t tenv now (.resp status)).2 = false) ∧
    (∀ post, (setTemperature s t tenv now post).2 = true → post = .raisesPost) := by
  have htarg : ∀ post, (setTemperature s t tenv now post).1.targetTemp = some t := by
    intro post
    unfold setTemperature setData
    by_cases hn : ({ s with targetTemp := some t } : ThermoState).token.isNone
    · by_cases h2 : (pyGetToken { s with targetTemp := some t } tenv now).token.isNone
      · simp [hn, h2, (pyGetToken_keeps_snapshot { s with targetTemp := some t } tenv now).2.1]
      · cases post <;>
          simp [hn, h2, (pyGetToken_keeps_snapshot { s with targetTemp := some t } tenv now).2.1]
    · cases post <;> simp [hn]
  have hoff : ∀ post, (turnOff s tenv now post).1.mode = some "OFF" := by
    intro post
    unfold turnOff setData
    by_cases hn : ({ s with mode := some "OFF" } : ThermoState).token.isNone
    · by_cases h2 : (pyGetToken { s with mode := some "OFF" } tenv now).token.isNone
      · simp [hn, h2, (pyGetToken_keeps_snapshot { s with mode := some "OFF" } tenv now).2.2.1]
      · cases post <;>
          simp [hn, h2, (pyGetToken_keeps_snapshot { s with mode := some "OFF" } tenv now).2.2.1]
    · cases post <;> simp [hn]
  have hon : ∀ post, (turnOn s tenv now post).1.mode = some "ON" := by
    intro post
    unfold turnOn setData
    by_cases hn : ({ s with mode := some "ON" } : ThermoState).token.isNone
    · by_cases h2 : (pyGetToken { s with mode := some "ON" } tenv now).token.isNone
      · simp [hn, h2, (pyGetToken_keeps_snapshot { s with mode := some "ON" } tenv now).2.2.1]
      · cases post <;>
          simp [hn, h2, (pyGetToken_keeps_snapshot { s with mode := some "ON" } tenv now).2.2.1]
    · cases post <;> simp [hn]
  refine ⟨fun post => ⟨htarg post, hoff post, hon post⟩, ?_, ?_⟩
  · intro status
    unfold setTemperature setData
    by_cases hn : ({ s with targetTemp := some t } : ThermoState).token.isNone
    · by_cases h2 : (pyGetToken { s with targetTemp := some t } tenv now).token.isNone
      · simp [hn, h2]
      · simp [hn, h2]
    · simp [hn]
  · intro post hraised
    cases post with
    | raisesPost => rfl
    | resp status =>
      exfalso
      revert hraised
      unfold setTemperature setData
      by_cases hn : ({ s with targetTemp := some t } : ThermoState).token.isNone
      · by_cases h2 : (pyGetToken { s with targetTemp := some t } tenv now).token.isNone
        · simp [hn, h2]
        · simp [hn, h2]
      · simp [hn]

/-- C9 amended witness: concrete write with a 500 response — target kept,
no propagation; and the optimistic conjunct at a raising POST. -/
theorem c9_witness :
    (setTemperature initThermo 21 ⟨false, false, false, []⟩ 0 (.resp 500)).1.targetTemp =
      some 21 ∧
    (setTemperature initThermo 21 ⟨false, false, false, []⟩ 0 (.resp 500)).2 = false ∧
    (turnOff initThermo ⟨false, false, false, []⟩ 0 .raisesPost).1.mode = some "OFF" := by
  have h := c9_amended initThermo 21 ⟨false, false, false, []⟩ 0
  exact ⟨(h.1 (.resp 500)).1, h.2.1 500, (h.1 .raisesPost).2.1⟩

/-- C10: `hvac_action` is OFF whenever the commanded mode is OFF; otherwise
HEATING iff `is_heating` when the device status is known; otherwise the
temperature fallback (HEATING iff current < target) when both temperatures
are known; otherwise IDLE. -/
theorem c10_hvac_action (s : ThermoState) :
    (s.mode = some "OFF" → hvacAction s = .off) ∧
    (s.mode ≠ some "OFF" → ∀ b, s.isHeating = some b →
      hvacAction s = (if b then .heating else .idle)) ∧
    (s.mode ≠ some "OFF" → s.isHeating = none → ∀ ct tt, s.currentTemp = some ct →
      s.targetTemp = some tt → hvacAction s = (if ct < tt then .heating else .idle)) ∧
    (s.mode ≠ some "OFF" → s.isHeating = none →
      (s.currentTemp = none ∨ s.targetTemp = none) → hvacAction s = .idle) := by
  refine ⟨?_, ?_, ?_, ?_⟩
  · intro h
    simp [hvacAction, hvacMode, h]
  · intro h b hb
    simp [hvacAction, hvacMode, h, hb]
  · intro h hh ct tt hct htt
    simp [hvacAction, hvacMode, h, hh, hct, htt]
  · intro h hh hnone
    cases hnone with
    | inl hc => cases htt : s.targetTemp <;> simp [hvacAction, hvacMode, h, hh, hc, htt]
    | inr ht => cases hcc : s.currentTemp <;> simp [hvacAction, hvacMode, h, hh, ht, hcc]

/-- C7: the extraction loop tries the five patterns in their fixed priority
order (`id="token"`, `name="token"`, single-quoted entry, double-quoted
entry, bare assignment) and returns the first capture group of the
highest-priority matching pattern — never a lower-priority match, wherever it
occurs in the text. -/
theorem c7_pattern_priority (html : List Char) (i : ℕ) (hi : i < tokenPatterns.length)
    (t : List Char) (hm : searchPat (tokenPatterns.get ⟨i, hi⟩) html = some t)
    (hnone : ∀ j (hj : j < i), searchPat (tokenPatterns.get ⟨j, Nat.lt_trans hj hi⟩) html = none) :
    extractToken html = some t := by
  have hi5 : i < 5 := hi
  interval_cases i
  · have hm0 : searchPat patIdToken html = some t := hm
    simp [extractToken, tokenPatterns, List.findSome?_cons, hm0]
  · have h0 : searchPat patIdToken html = none := hnone 0 (by omega)
    have hm1 : searchPat patNameToken html = some t := hm
    simp [extractToken, tokenPatterns, List.findSome?_cons, h0, hm1]
  · have h0 : searchPat patIdToken html = none := hnone 0 (by omega)
    have h1 : searchPat patNameToken html = none := hnone 1 (by omega)
    have hm2 : searchPat patSQuoteToken html = some t := hm
    simp [extractToken, tokenPatterns, List.findSome?_cons, h0, h1, hm2]
  · have h0 : searchPat patIdToken html = none := hnone 0 (by omega)
    have h1 : searchPat patNameToken html = none := hnone 1 (by omega)
    have h2 : searchPat patSQuoteToken html = none := hnone 2 (by omega)
    have hm3 : searchPat patDQuoteToken html = some t := hm
    simp [extractToken, tokenPatterns, List.findSome?_cons, h0, h1, h2, hm3]
  · have h0 : searchPat patIdToken html = none := hnone 0 (by omega)
    have h1 : searchPat patNameToken html = none := hnone 1 (by omega)
    have h2 : searchPat patSQuoteToken html = none := hnone 2 (by omega)
    have h3 : searchPat patDQuoteToken html = none := hnone 3 (by omega)
    have hm4 : searchPat patAssignToken html = some t := hm
    simp [extractToken, tokenPatterns, List.findSome?_cons, h0, h1, h2, h3, hm4]

/-- C7 witness: HTML in which the lowest-priority fragment
(`token = "low"`) appears BEFORE the `id="token"` input; the extractor still
returns the top-priority capture `high`, while the bare-assignment pattern on
its own would have matched `low`. -/
theorem c7_witness :
    extractToken (String.toList "token = \"low\" <input id=\"token\" value=\"high\">") =
      some (String.toList "high") ∧
    searchPat patAssignToken
      (String.toList "token = \"low\" <input id=\"token\" value=\"high\">") =
      some (String.toList "low") := by
  constructor
  · exact c7_pattern_priority _ 0 (by decide) _ (by decide)
      (fun j hj => absurd hj (Nat.not_lt_zero j))
  · decide

/-- C10 witness: the four regimes at concrete states. -/
theorem c10_witness :
    hvacAction ⟨some 25, some 20, some "OFF", none, some true, none, none, none⟩ = .off ∧
    hvacAction ⟨some 25, some 20, some "ON", none, some true, none, none, none⟩ = .heating ∧
    hvacAction ⟨some 18, some 20, some "ON", none, none, none, none, none⟩ = .heating ∧
    hvacAction ⟨none, some 20, some "ON", none, none, none, none, none⟩ = .idle := by
  refine ⟨?_, ?_, ?_, ?_⟩
  · exact (c10_hvac_action _).1 rfl
  · have h := (c10_hvac_action ⟨some 25, some 20, some "ON", none, some true, none, none, none⟩).2.1
      (by simp) true rfl
    simpa using h
  · have h := (c10_hvac_action ⟨some 18, some 20, some "ON", none, none, none, none, none⟩).2.2.1
      (by simp) rfl 18 20 rfl rfl
    norm_num at h
    exact h
  · exact (c10_hvac_action _).2.2.2 (by simp) rfl (Or.inl rfl)

end Salus
